import Mathlib

/-!
Shallow embedding of the role-based social-learning platform backend
(Hono + Mongoose, TypeScript). Users, assignments with embedded
submissions, and the controller functions the specification talks about
are translated into executable Lean definitions; timestamps are Int
milliseconds since the epoch, document ids are Nat.
-/

namespace SMP

/-- `UserRole` from `src/server/src/models/User.ts`: the closed enum
`'admin' | 'professor' | 'student'`. -/
inductive UserRole where
  | admin
  | professor
  | student
deriving DecidableEq, Repr

/-- A stored `User` document (`src/server/src/models/User.ts`). -/
structure StoredUser where
  id : Nat
  name : String
  email : String
  passwordHash : String
  role : UserRole
deriving DecidableEq, Repr

/-- The identity injected by the auth middleware
(`AuthUser` in `src/server/src/middleware/auth.ts`). -/
structure AuthUser where
  id : Nat
  name : String
  email : String
  role : UserRole
deriving DecidableEq, Repr

/-- A JSON error/success response: HTTP status plus the `error`/`message`
string of the body. -/
structure Resp where
  status : Nat
  msg : String
deriving DecidableEq, Repr

/-- `User.findOne({ email })`. -/
def findUserByEmail (db : List StoredUser) (email : String) : Option StoredUser :=
  db.find? (fun u => u.email == email)

/-- `User.findById(id)`. -/
def findUserById (db : List StoredUser) (uid : Nat) : Option StoredUser :=
  db.find? (fun u => u.id == uid)

/-- The body of `POST /auth/register`; `role` is the optional enum field of
`registerSchema`, which `registerUser` never reads back. -/
structure RegisterRequest where
  name : String
  email : String
  password : String
  role : Option UserRole
deriving DecidableEq, Repr

/-- `registerSchema.safeParse` success: name at least 2 chars, email passes
the zod email format check (library code, abstracted as `emailOk`),
password at least 6 chars.  The optional `role` is always a valid enum
member here by typing. -/
def registerValid (emailOk : String → Bool) (r : RegisterRequest) : Bool :=
  decide (2 ≤ r.name.length) && emailOk r.email && decide (6 ≤ r.password.length)

/-- Outcome of `registerUser`: response plus the user table afterwards. -/
def registerUser (hashFn : String → String) (emailOk : String → Bool)
    (db : List StoredUser) (freshId : Nat) (req : RegisterRequest) :
    Resp × List StoredUser :=
  if ¬ registerValid emailOk req then
    (⟨400, "Validation failed"⟩, db)
  else if (findUserByEmail db req.email).isSome then
    (⟨409, "Email already registered"⟩, db)
  else
    let role : UserRole := if db.length = 0 then .admin else .student
    let newUser : StoredUser :=
      { id := freshId, name := req.name, email := req.email,
        passwordHash := hashFn req.password, role := role }
    (⟨201, "registered"⟩, db ++ [newUser])

/-- The body of `POST /auth/login`. -/
structure LoginRequest where
  email : String
  password : String
deriving DecidableEq, Repr

/-- `loginUser` from the auth controller.  `verifyPw pw hash` stands for
`bcrypt.compare(pw, hash)`; `emailOk` for the zod email format check. -/
def loginUser (verifyPw : String → String → Bool) (emailOk : String → Bool)
    (db : List StoredUser) (req : LoginRequest) : Resp :=
  if ¬ (emailOk req.email && decide (6 ≤ req.password.length)) then
    ⟨400, "Validation failed"⟩
  else
    match findUserByEmail db req.email with
    | none => ⟨401, "Invalid email or password"⟩
    | some user =>
      if ¬ verifyPw req.password user.passwordHash then
        ⟨401, "Invalid email or password"⟩
      else
        ⟨200, "login ok"⟩

/-- `updateUserRole` from `src/server/src/controllers/user.controller.ts`
(admin only; an admin may not change their own role away from admin). -/
def updateUserRole (db : List StoredUser) (currentUser : Option AuthUser)
    (targetId : Nat) (newRole : UserRole) : Resp × List StoredUser :=
  match currentUser with
  | none => (⟨403, "Admin access required"⟩, db)
  | some user =>
    if user.role ≠ UserRole.admin then
      (⟨403, "Admin access required"⟩, db)
    else
      match findUserById db targetId with
      | none => (⟨404, "User not found"⟩, db)
      | some target =>
        if target.id = user.id ∧ newRole ≠ UserRole.admin then
          (⟨400, "You cannot change your own admin role"⟩, db)
        else
          (⟨200, "role updated"⟩,
           db.map (fun u => if u.id = targetId then { u with role := newRole } else u))

/-- An embedded `Submission` subdocument (`submissionSchema` in the
Assignment model file).  `content` and `fileUrl` are stored after
mongoose/zod trimming; `submittedAt` is the server-assigned timestamp. -/
structure Submission where
  id : Nat
  studentId : Nat
  content : String
  fileUrl : Option String
  submittedAt : Int
deriving DecidableEq, Repr

/-- An `Assignment` document with its embedded submissions. -/
structure Assignment where
  id : Nat
  title : String
  description : String
  dueDate : Int
  createdBy : Nat
  submissions : List Submission
  createdAt : Int
  updatedAt : Int
deriving DecidableEq, Repr

namespace Assignment

/-- Instance method `getSubmissionByStudent`. -/
def getSubmissionByStudent (a : Assignment) (studentId : Nat) : Option Submission :=
  a.submissions.find? (fun sub => sub.studentId == studentId)

/-- Instance method `hasStudentSubmitted`. -/
def hasStudentSubmitted (a : Assignment) (studentId : Nat) : Bool :=
  a.submissions.any (fun sub => sub.studentId == studentId)

/-- Instance method `isOverdue`: `new Date() > this.dueDate`, recomputed
from the stored due date at each call with the current time `now`. -/
def isOverdue (a : Assignment) (now : Int) : Bool :=
  decide (now > a.dueDate)

/-- Instance method `getSubmissionCount`. -/
def getSubmissionCount (a : Assignment) : Nat :=
  a.submissions.length

end Assignment

/-- `Assignment.findById(id)`. -/
def findAssignmentById (db : List Assignment) (aid : Nat) : Option Assignment :=
  db.find? (fun a => a.id == aid)

/-- Whitespace trimming as performed by the zod `.trim()` transform and
the mongoose `trim: true` setter (the JavaScript string `trim`):
leading and trailing whitespace removed. -/
def trimString (s : String) : String :=
  ⟨((s.data.dropWhile Char.isWhitespace).reverse.dropWhile Char.isWhitespace).reverse⟩

/-- The due-date rule shared by the zod `.refine` in
`createAssignmentSchema` and the mongoose `dueDate` validator:
`date > new Date(Date.now() - 24 * 60 * 60 * 1000)`. -/
def dueDateValid (now : Int) (dueDate : Int) : Bool :=
  decide (dueDate > now - 24 * 60 * 60 * 1000)

/-- The mongoose `fileUrl` validator regex `^https?:\/\/.+` (empty value
passes because the field is optional). -/
def fileUrlFormatOk (url : String) : Bool :=
  url = "" ||
    (url.startsWith "http://" && decide (url.length > 7)) ||
    (url.startsWith "https://" && decide (url.length > 8))

/-- Mongoose document validation of one embedded submission: `content`
required (non-empty after trim) with maxlength 5000, `fileUrl` matching
the URL regex when present. -/
def submissionDocValid (s : Submission) : Bool :=
  decide (s.content ≠ "") && decide (s.content.length ≤ 5000) &&
    (match s.fileUrl with
     | none => true
     | some u => fileUrlFormatOk u)

/-- Mongoose document validation of an assignment (runs on every `save()`):
title 3–200 chars, description 10–10000 chars, the due-date validator
against the current time, and each embedded submission valid. -/
def assignmentDocValid (now : Int) (a : Assignment) : Bool :=
  decide (3 ≤ a.title.length) && decide (a.title.length ≤ 200) &&
    decide (10 ≤ a.description.length) && decide (a.description.length ≤ 10000) &&
    dueDateValid now a.dueDate &&
    a.submissions.all submissionDocValid

/-- The `pre('save')` hook validating newly added submissions
(student must exist in the user table with role student, and must not
already have a submission on this assignment).  `existing` is the
submission list before the push, `newSub` the pushed submission.
Returns the error message passed to `next`, if any. -/
def submissionHookError (userDb : List StoredUser) (existing : List Submission)
    (newSub : Submission) : Option String :=
  match findUserById userDb newSub.studentId with
  | none => some "Student not found"
  | some student =>
    if student.role ≠ UserRole.student then
      some "Only students can submit assignments"
    else if existing.any (fun sub => sub.studentId == newSub.studentId) then
      some "Student has already submitted this assignment"
    else
      none

/-- The body of `POST /assignments/:id/submit`. -/
structure SubmitRequest where
  content : String
  fileUrl : Option String
deriving DecidableEq, Repr

/-- `submitAssignmentSchema.safeParse` success: content 1–5000 chars
(checked before the trim transform), `fileUrl` absent, the empty literal,
or passing the zod `.url()` library check `urlOk`. -/
def submitReqValid (urlOk : String → Bool) (r : SubmitRequest) : Bool :=
  decide (1 ≤ r.content.length) && decide (r.content.length ≤ 5000) &&
    (match r.fileUrl with
     | none => true
     | some u => (u == "") || urlOk u)

/-- The zod transform on `fileUrl`: the empty string becomes `undefined`. -/
def normalizeFileUrl (fileUrl : Option String) : Option String :=
  match fileUrl with
  | none => none
  | some u => if u = "" then none else some u

/-- `submitAssignment` (students only): role gate, zod validation, lookup,
overdue check, duplicate check, then push + `save()` (mongoose document
validation followed by the submission `pre('save')` hook; a hook error
whose message mentions a duplicate maps to 400, anything else to 500). -/
def submitAssignment (urlOk : String → Bool) (userDb : List StoredUser)
    (db : List Assignment) (now : Int) (currentUser : Option AuthUser)
    (aid : Nat) (freshSubId : Nat) (req : SubmitRequest) :
    Resp × List Assignment :=
  match currentUser with
  | none => (⟨403, "Only students can submit assignments"⟩, db)
  | some user =>
    if user.role ≠ UserRole.student then
      (⟨403, "Only students can submit assignments"⟩, db)
    else if ¬ submitReqValid urlOk req then
      (⟨400, "Validation failed"⟩, db)
    else
      match findAssignmentById db aid with
      | none => (⟨404, "Assignment not found"⟩, db)
      | some a =>
        if a.isOverdue now then
          (⟨400, "Assignment submission deadline has passed"⟩, db)
        else if a.hasStudentSubmitted user.id then
          (⟨400, "You have already submitted this assignment"⟩, db)
        else
          let newSub : Submission :=
            { id := freshSubId, studentId := user.id,
              content := trimString req.content,
              fileUrl := normalizeFileUrl req.fileUrl,
              submittedAt := now }
          let a2 : Assignment :=
            { a with submissions := a.submissions ++ [newSub], updatedAt := now }
          if ¬ assignmentDocValid now a2 then
            (⟨500, "Failed to submit assignment"⟩, db)
          else
            match submissionHookError userDb a.submissions newSub with
            | some m =>
              if m = "Student has already submitted this assignment" then
                (⟨400, m⟩, db)
              else
                (⟨500, "Failed to submit assignment"⟩, db)
            | none =>
              (⟨201, "Assignment submitted successfully"⟩,
               db.map (fun x => if x.id = aid then a2 else x))

/-- `deleteAssignment` (professors their own, admins any; guarded against
deleting an assignment that has submissions). -/
def deleteAssignment (db : List Assignment) (currentUser : Option AuthUser)
    (aid : Nat) : Resp × List Assignment :=
  match currentUser with
  | none => (⟨403, "Only professors and admins can delete assignments"⟩, db)
  | some user =>
    if ¬ (user.role = UserRole.professor ∨ user.role = UserRole.admin) then
      (⟨403, "Only professors and admins can delete assignments"⟩, db)
    else
      match findAssignmentById db aid with
      | none => (⟨404, "Assignment not found"⟩, db)
      | some a =>
        if user.role = UserRole.professor ∧ a.createdBy ≠ user.id then
          (⟨403, "Access denied"⟩, db)
        else if a.submissions.length > 0 then
          (⟨400, "Cannot delete assignment with existing submissions"⟩, db)
        else
          (⟨200, "Assignment deleted successfully"⟩,
           db.filter (fun x => x.id ≠ aid))

/-- The `status` query parameter of `GET /assignments`. -/
inductive StatusFilter where
  | upcoming
  | overdue
  | all
deriving DecidableEq, Repr

/-- Role-based filter of `getAssignments`: professors see only their own
assignments; students and admins see all. -/
def roleMatches (user : AuthUser) (a : Assignment) : Bool :=
  match user.role with
  | .professor => a.createdBy == user.id
  | .student => true
  | .admin => true

/-- Status filter of `getAssignments`: `upcoming` keeps
`dueDate >= now`, `overdue` keeps `dueDate < now`, `all` keeps everything. -/
def statusMatches (now : Int) (st : StatusFilter) (a : Assignment) : Bool :=
  match st with
  | .upcoming => decide (a.dueDate ≥ now)
  | .overdue => decide (a.dueDate < now)
  | .all => true

/-- The set of assignments matched by the query `getAssignments` builds
(role filter then status filter); sorting reorders and pagination windows
this list downstream without changing which assignments match. -/
def assignmentListing (db : List Assignment) (now : Int) (user : AuthUser)
    (st : StatusFilter) : List Assignment :=
  (db.filter (roleMatches user)).filter (statusMatches now st)

/-- The body of `POST /assignments` (`dueDate` already parsed from the
ISO datetime string). -/
structure CreateAssignmentRequest where
  title : String
  description : String
  dueDate : Int
deriving DecidableEq, Repr

/-- `createAssignmentSchema.safeParse` success: title 3–200 chars,
description 10–10000 chars (both checked before the trim transform), and
the due-date refinement against the current time. -/
def createReqValid (now : Int) (r : CreateAssignmentRequest) : Bool :=
  decide (3 ≤ r.title.length) && decide (r.title.length ≤ 200) &&
    decide (10 ≤ r.description.length) && decide (r.description.length ≤ 10000) &&
    dueDateValid now r.dueDate

/-- The `pre('save')` hook validating the creator whenever the document is
new or `createdBy` changed: the creator must exist with role professor or
admin.  Returns the error message passed to `next`, if any. -/
def creatorHookError (userDb : List StoredUser) (creatorId : Nat) : Option String :=
  match findUserById userDb creatorId with
  | none => some "Creator not found"
  | some creator =>
    if creator.role ≠ UserRole.professor ∧ creator.role ≠ UserRole.admin then
      some "Only professors and admins can create assignments"
    else
      none

/-- `createAssignment` (professors and admins only): role gate, zod
validation, then `save()` — mongoose document validation, then the
creator hook; a hook error mentioning "Only professors and admins" maps
to 403, other save errors to 500. -/
def createAssignment (userDb : List StoredUser) (db : List Assignment)
    (now : Int) (currentUser : Option AuthUser) (freshId : Nat)
    (req : CreateAssignmentRequest) : Resp × List Assignment :=
  match currentUser with
  | none => (⟨403, "Only professors and admins can create assignments"⟩, db)
  | some user =>
    if ¬ (user.role = UserRole.professor ∨ user.role = UserRole.admin) then
      (⟨403, "Only professors and admins can create assignments"⟩, db)
    else if ¬ createReqValid now req then
      (⟨400, "Validation failed"⟩, db)
    else
      let doc : Assignment :=
        { id := freshId, title := trimString req.title,
          description := trimString req.description, dueDate := req.dueDate,
          createdBy := user.id, submissions := [],
          createdAt := now, updatedAt := now }
      if ¬ assignmentDocValid now doc then
        (⟨500, "Failed to create assignment"⟩, db)
      else
        match creatorHookError userDb user.id with
        | some m =>
          if m = "Only professors and admins can create assignments" then
            (⟨403, m⟩, db)
          else
            (⟨500, "Failed to create assignment"⟩, db)
        | none => (⟨201, "Assignment created"⟩, db ++ [doc])

/-- The body of `PUT /assignments/:id`: `createAssignmentSchema.partial()`,
every field optional. -/
structure UpdateAssignmentRequest where
  title : Option String
  description : Option String
  dueDate : Option Int
deriving DecidableEq, Repr

/-- The zod check of an optional `title` field of
`updateAssignmentSchema`: absent, or 3–200 chars. -/
def zodTitleOk (t : Option String) : Bool :=
  match t with
  | none => true
  | some s => decide (3 ≤ s.length) && decide (s.length ≤ 200)

/-- The zod check of an optional `description` field of
`updateAssignmentSchema`: absent, or 10–10000 chars. -/
def zodDescriptionOk (dsc : Option String) : Bool :=
  match dsc with
  | none => true
  | some s => decide (10 ≤ s.length) && decide (s.length ≤ 10000)

/-- `updateAssignmentSchema.safeParse` success: each supplied field passes
the corresponding check of `createAssignmentSchema`. -/
def updateReqValid (now : Int) (r : UpdateAssignmentRequest) : Bool :=
  zodTitleOk r.title && zodDescriptionOk r.description &&
    (match r.dueDate with
     | none => true
     | some d => dueDateValid now d)

/-- The field-by-field copy in `updateAssignment` (`if (updates.x !==
undefined) assignment.x = updates.x`), with mongoose trimming the string
setters. -/
def applyAssignmentUpdates (a : Assignment) (r : UpdateAssignmentRequest)
    (now : Int) : Assignment :=
  { a with
    title := (r.title.map trimString).getD a.title,
    description := (r.description.map trimString).getD a.description,
    dueDate := r.dueDate.getD a.dueDate,
    updatedAt := now }

/-- `updateAssignment` (professors their own, admins any): role gate, zod
validation, lookup, ownership check, field copy, then `save()` re-running
mongoose document validation (the creator hook is skipped because the
document is not new and `createdBy` is untouched). -/
def updateAssignment (db : List Assignment) (now : Int)
    (currentUser : Option AuthUser) (aid : Nat)
    (req : UpdateAssignmentRequest) : Resp × List Assignment :=
  match currentUser with
  | none => (⟨403, "Only professors and admins can update assignments"⟩, db)
  | some user =>
    if ¬ (user.role = UserRole.professor ∨ user.role = UserRole.admin) then
      (⟨403, "Only professors and admins can update assignments"⟩, db)
    else if ¬ updateReqValid now req then
      (⟨400, "Validation failed"⟩, db)
    else
      match findAssignmentById db aid with
      | none => (⟨404, "Assignment not found"⟩, db)
      | some a =>
        if user.role = UserRole.professor ∧ a.createdBy ≠ user.id then
          (⟨403, "Access denied"⟩, db)
        else
          let a2 := applyAssignmentUpdates a req now
          if ¬ assignmentDocValid now a2 then
            (⟨500, "Failed to update assignment"⟩, db)
          else
            (⟨200, "Assignment updated"⟩,
             db.map (fun x => if x.id = aid then a2 else x))

/-- A multipart file as extracted by `extractFileFromRequest`. -/
structure UploadedFile where
  originalName : String
  mimeType : String
  size : Nat
deriving DecidableEq, Repr

/-- The fixed MIME allow-list of `validateFile` in
`cloudinary.service.ts`. -/
def allowedUploadTypes : List String :=
  ["application/pdf",
   "application/msword",
   "application/vnd.openxmlformats-officedocument.wordprocessingml.document",
   "text/plain",
   "image/jpeg",
   "image/png",
   "image/gif",
   "image/webp",
   "application/zip",
   "application/x-zip-compressed"]

/-- `validateFile`: rejects files over 10MB, then MIME types outside the
allow-list; returns the thrown error message on rejection. -/
def validateFile (f : UploadedFile) : Except String Unit :=
  if f.size > 10 * 1024 * 1024 then
    .error "File size exceeds 10MB limit"
  else if ¬ allowedUploadTypes.contains f.mimeType then
    .error "Invalid file type. Allowed types: PDF, DOC, DOCX, TXT, JPG, PNG, GIF, WEBP, ZIP"
  else
    .ok ()

/-- The image allow-list in `uploadPostImage` (the upload controller). -/
def imageTypes : List String :=
  ["image/jpeg", "image/png", "image/gif", "image/webp"]

/-- Outcome of an upload controller: either a rejection response, or the
file was forwarded to the third-party cloud storage. -/
inductive UploadOutcome where
  | rejected (r : Resp)
  | forwarded
deriving DecidableEq, Repr

/-- `uploadAssignmentSubmission` up to the Cloudinary call: student gate,
configuration check, assignment lookup, overdue check, then `validateFile`
(whose error the catch block maps to a 400). -/
def uploadAssignmentSubmission (configured : Bool) (db : List Assignment)
    (now : Int) (currentUser : Option AuthUser) (aid : Nat)
    (file : UploadedFile) : UploadOutcome :=
  match currentUser with
  | none => .rejected ⟨403, "Only students can upload assignment files"⟩
  | some user =>
    if user.role ≠ UserRole.student then
      .rejected ⟨403, "Only students can upload assignment files"⟩
    else if ¬ configured then
      .rejected ⟨503, "File upload service not configured"⟩
    else
      match findAssignmentById db aid with
      | none => .rejected ⟨404, "Assignment not found"⟩
      | some a =>
        if a.isOverdue now then
          .rejected ⟨400, "Assignment submission deadline has passed"⟩
        else
          match validateFile file with
          | .error m => .rejected ⟨400, m⟩
          | .ok _ => .forwarded

/-- `uploadPostImage` up to the Cloudinary call: authentication,
configuration check, image-type allow-list, then the 5MB size limit. -/
def uploadPostImageCtrl (configured : Bool) (currentUser : Option AuthUser)
    (file : UploadedFile) : UploadOutcome :=
  match currentUser with
  | none => .rejected ⟨401, "Authentication required"⟩
  | some _ =>
    if ¬ configured then
      .rejected ⟨503, "Image upload service not configured"⟩
    else if ¬ imageTypes.contains file.mimeType then
      .rejected ⟨400, "Invalid file type. Only JPG, PNG, GIF, and WEBP images are allowed"⟩
    else if file.size > 5 * 1024 * 1024 then
      .rejected ⟨400, "Image size exceeds 5MB limit"⟩
    else
      .forwarded

/-! ### Concrete fixtures used by witnesses -/

/-- A stored admin user. -/
def sampleAdminUser : StoredUser :=
  { id := 1, name := "Ada Admin", email := "ada@example.com",
    passwordHash := "hash1", role := .admin }

/-- A stored professor. -/
def sampleProfUser : StoredUser :=
  { id := 2, name := "Pat Prof", email := "pat@example.com",
    passwordHash := "hash2", role := .professor }

/-- A stored student. -/
def sampleStudentUser : StoredUser :=
  { id := 5, name := "Stu Dent", email := "stu@example.com",
    passwordHash := "hash5", role := .student }

/-- A user table holding the three sample users. -/
def sampleUserDb : List StoredUser :=
  [sampleAdminUser, sampleProfUser, sampleStudentUser]

/-- The admin's request identity. -/
def sampleAdminAuth : AuthUser :=
  { id := 1, name := "Ada Admin", email := "ada@example.com", role := .admin }

/-- The professor's request identity. -/
def sampleProfAuth : AuthUser :=
  { id := 2, name := "Pat Prof", email := "pat@example.com", role := .professor }

/-- The student's request identity. -/
def sampleStudentAuth : AuthUser :=
  { id := 5, name := "Stu Dent", email := "stu@example.com", role := .student }

/-- A submission by the sample student. -/
def sampleSubmission : Submission :=
  { id := 10, studentId := 5, content := "my work", fileUrl := none,
    submittedAt := 50 }

/-- An assignment (due at time 100) that already holds the sample
student's submission. -/
def sampleOverdueAssignment : Assignment :=
  { id := 1, title := "Essay one", description := "Write about things.",
    dueDate := 100, createdBy := 2, submissions := [sampleSubmission],
    createdAt := 0, updatedAt := 0 }

/-- An assignment due at time 1000 with no submissions. -/
def sampleOpenAssignment : Assignment :=
  { id := 2, title := "Essay two", description := "Write more things.",
    dueDate := 1000, createdBy := 2, submissions := [],
    createdAt := 0, updatedAt := 0 }

/-- The assignment table holding both sample assignments. -/
def sampleAssignmentDb : List Assignment :=
  [sampleOverdueAssignment, sampleOpenAssignment]

/-- A well-formed submission body. -/
def sampleSubmitReq : SubmitRequest :=
  { content := "answer text", fileUrl := none }

/-! ### Claims -/

/-- C1: `registerUser` assigns role admin to the user created when the
user count is zero and student otherwise, regardless of the optional
`role` field of the request: whenever registration succeeds (201), the
stored table is extended by exactly one user whose role is determined by
the prior user count alone. -/
theorem registerUser_role_rule (hashFn : String → String) (emailOk : String → Bool)
    (db : List StoredUser) (freshId : Nat) (req : RegisterRequest)
    (h : (registerUser hashFn emailOk db freshId req).1.status = 201) :
    (registerUser hashFn emailOk db freshId req).2 =
      db ++ [{ id := freshId, name := req.name, email := req.email,
               passwordHash := hashFn req.password,
               role := if db.length = 0 then UserRole.admin else UserRole.student }] := by
  by_cases h1 : registerValid emailOk req
  · by_cases h2 : (findUserByEmail db req.email).isSome
    · exfalso
      simp [registerUser, h1, h2] at h
    · simp [registerUser, h1, h2]
  · exfalso
    simp [registerUser, h1] at h

/-- Witness for C1: the very first registration, requesting role
professor, still yields the admin role. -/
theorem registerUser_role_rule_witness :
    (registerUser (fun p => p) (fun _ => true) [] 7
        { name := "Alice", email := "alice@example.com", password := "secret1",
          role := some UserRole.professor }).2 =
      [] ++ [{ id := 7, name := "Alice", email := "alice@example.com",
               passwordHash := "secret1",
               role := if ([] : List StoredUser).length = 0 then UserRole.admin
                       else UserRole.student }] :=
  registerUser_role_rule (fun p => p) (fun _ => true) [] 7 _ (by decide)

/-- C7: for a syntactically valid login request whose email matches no
user, and one whose email matches a user but whose password fails the
hash check, `loginUser` returns the same 401 response with the identical
message, so the reply does not reveal whether the email is registered. -/
theorem loginUser_uniform_unauthorized (verifyPw : String → String → Bool)
    (emailOk : String → Bool) (db : List StoredUser) (r1 r2 : LoginRequest)
    (u : StoredUser)
    (hv1 : emailOk r1.email = true) (hp1 : 6 ≤ r1.password.length)
    (hv2 : emailOk r2.email = true) (hp2 : 6 ≤ r2.password.length)
    (h1 : findUserByEmail db r1.email = none)
    (h2 : findUserByEmail db r2.email = some u)
    (h3 : verifyPw r2.password u.passwordHash = false) :
    loginUser verifyPw emailOk db r1 = ⟨401, "Invalid email or password"⟩ ∧
    loginUser verifyPw emailOk db r2 = ⟨401, "Invalid email or password"⟩ ∧
    loginUser verifyPw emailOk db r1 = loginUser verifyPw emailOk db r2 := by
  have e1 : loginUser verifyPw emailOk db r1 = ⟨401, "Invalid email or password"⟩ := by
    simp [loginUser, hv1, hp1, h1]
  have e2 : loginUser verifyPw emailOk db r2 = ⟨401, "Invalid email or password"⟩ := by
    simp [loginUser, hv2, hp2, h2, h3]
  exact ⟨e1, e2, e1.trans e2.symm⟩

/-- Witness for C7: an unknown email and a wrong password against the
sample user table produce the identical 401 response. -/
theorem loginUser_uniform_unauthorized_witness :
    loginUser (fun p h => p == h) (fun _ => true) sampleUserDb
        { email := "ghost@example.com", password := "whatever" } =
      ⟨401, "Invalid email or password"⟩ ∧
    loginUser (fun p h => p == h) (fun _ => true) sampleUserDb
        { email := "stu@example.com", password := "wrongpass" } =
      ⟨401, "Invalid email or password"⟩ ∧
    loginUser (fun p h => p == h) (fun _ => true) sampleUserDb
        { email := "ghost@example.com", password := "whatever" } =
      loginUser (fun p h => p == h) (fun _ => true) sampleUserDb
        { email := "stu@example.com", password := "wrongpass" } :=
  loginUser_uniform_unauthorized (fun p h => p == h) (fun _ => true)
    sampleUserDb _ _ sampleStudentUser rfl (by decide) rfl (by decide)
    (by decide) (by decide) (by decide)

/-- C8: `isOverdue` is true exactly when the current time is strictly
greater than the stored due date, and it is a function of the stored due
date alone (recomputed per call, never a stored field): assignments with
equal due dates always agree on it. -/
theorem isOverdue_spec (a : Assignment) (now : Int) :
    (a.isOverdue now = true ↔ now > a.dueDate) ∧
    (∀ b : Assignment, b.dueDate = a.dueDate → b.isOverdue now = a.isOverdue now) := by
  constructor
  · simp [Assignment.isOverdue]
  · intro b hb
    simp [Assignment.isOverdue, hb]

/-- Witness for C8 at time 200 on the sample assignments. -/
theorem isOverdue_spec_witness :
    (sampleOpenAssignment.isOverdue 200 = sampleOpenAssignment.isOverdue 200) ∧
    (sampleOverdueAssignment.isOverdue 200 = true ↔
      (200 : Int) > sampleOverdueAssignment.dueDate) :=
  ⟨(isOverdue_spec sampleOpenAssignment 200).2 sampleOpenAssignment rfl,
   (isOverdue_spec sampleOverdueAssignment 200).1⟩

/-- C6: for an admin actor and an existing target user, `updateUserRole`
rejects (400) a self-targeted request for a non-admin role and leaves the
table unchanged (so the actor's stored role, admin per the claim, stays);
for any other target — including another admin — it succeeds (200) and
sets that user's role to the requested value. -/
theorem updateUserRole_self_guard (db : List StoredUser) (actor : AuthUser)
    (targetId : Nat) (newRole : UserRole) (target : StoredUser)
    (hadmin : actor.role = UserRole.admin)
    (hfind : findUserById db targetId = some target) :
    (target.id = actor.id → newRole ≠ UserRole.admin →
       updateUserRole db (some actor) targetId newRole =
         (⟨400, "You cannot change your own admin role"⟩, db)) ∧
    (target.id ≠ actor.id →
       (updateUserRole db (some actor) targetId newRole).1.status = 200 ∧
       (updateUserRole db (some actor) targetId newRole).2 =
         db.map (fun u => if u.id = targetId then { u with role := newRole } else u) ∧
       ∀ u ∈ (updateUserRole db (some actor) targetId newRole).2,
         u.id = targetId → u.role = newRole) := by
  constructor
  · intro hself hnr
    simp [updateUserRole, hadmin, hfind, hself, hnr]
  · intro hne
    have hcond : ¬ (target.id = actor.id ∧ newRole ≠ UserRole.admin) := by
      intro hc
      exact hne hc.1
    have h2 : (updateUserRole db (some actor) targetId newRole).2 =
        db.map (fun u => if u.id = targetId then { u with role := newRole } else u) := by
      simp [updateUserRole, hadmin, hfind, hcond]
    refine ⟨by simp [updateUserRole, hadmin, hfind, hcond], h2, ?_⟩
    intro u hu huid
    rw [h2] at hu
    rcases List.mem_map.1 hu with ⟨v, hv, rfl⟩
    by_cases hvid : v.id = targetId
    · simp [hvid]
    · simp only [if_neg hvid] at huid
      exact absurd huid hvid

/-- Witness for C6: the sample admin cannot demote themselves, but can
promote the sample professor to admin. -/
theorem updateUserRole_self_guard_witness :
    updateUserRole sampleUserDb (some sampleAdminAuth) 1 UserRole.student =
      (⟨400, "You cannot change your own admin role"⟩, sampleUserDb) ∧
    (updateUserRole sampleUserDb (some sampleAdminAuth) 2 UserRole.admin).1.status = 200 :=
  ⟨(updateUserRole_self_guard sampleUserDb sampleAdminAuth 1 UserRole.student
      sampleAdminUser rfl (by decide)).1 (by decide) (by decide),
   ((updateUserRole_self_guard sampleUserDb sampleAdminAuth 2 UserRole.admin
      sampleProfUser rfl (by decide)).2 (by decide)).1⟩

/-- C3: for an existing assignment, `deleteAssignment` never deletes when
the submission list is non-empty (any caller gets an error and the table
is unchanged), and an admin or the creating professor deletes an
assignment with no submissions, removing it from the table. -/
theorem deleteAssignment_guard (db : List Assignment) (user : AuthUser)
    (aid : Nat) (a : Assignment)
    (hfind : findAssignmentById db aid = some a) :
    (a.submissions ≠ [] →
       (deleteAssignment db (some user) aid).1.status ≠ 200 ∧
       (deleteAssignment db (some user) aid).2 = db) ∧
    (a.submissions = [] →
       (user.role = UserRole.admin ∨
         (user.role = UserRole.professor ∧ a.createdBy = user.id)) →
       deleteAssignment db (some user) aid =
         (⟨200, "Assignment deleted successfully"⟩,
          db.filter (fun x => x.id ≠ aid))) := by
  constructor
  · intro hsub
    have hlen : 0 < a.submissions.length := List.length_pos.mpr hsub
    simp only [deleteAssignment, hfind]
    split_ifs
    all_goals exact ⟨by simp, rfl⟩
  · intro hempty hperm
    have h1 : user.role = UserRole.professor ∨ user.role = UserRole.admin := by
      rcases hperm with h | ⟨h, _⟩
      · exact Or.inr h
      · exact Or.inl h
    have h2 : ¬ (user.role = UserRole.professor ∧ a.createdBy ≠ user.id) := by
      rintro ⟨hp, hne⟩
      rcases hperm with h | ⟨_, h⟩
      · rw [h] at hp
        exact absurd hp (by decide)
      · exact hne h
    have h3 : ¬ (a.submissions.length > 0) := by
      rw [hempty]
      simp
    simp only [deleteAssignment, hfind]
    split_ifs
    rfl

/-- Witness for C3: deleting the sample assignment that has a submission
fails and keeps the table intact; the creating professor deletes the
submission-free assignment, removing it. -/
theorem deleteAssignment_guard_witness :
    ((deleteAssignment sampleAssignmentDb (some sampleProfAuth) 1).1.status ≠ 200 ∧
     (deleteAssignment sampleAssignmentDb (some sampleProfAuth) 1).2 = sampleAssignmentDb) ∧
    deleteAssignment sampleAssignmentDb (some sampleProfAuth) 2 =
      (⟨200, "Assignment deleted successfully"⟩,
       sampleAssignmentDb.filter (fun x => x.id ≠ 2)) :=
  ⟨(deleteAssignment_guard sampleAssignmentDb sampleProfAuth 1 sampleOverdueAssignment
      (by decide)).1 (by decide),
   (deleteAssignment_guard sampleAssignmentDb sampleProfAuth 2 sampleOpenAssignment
      (by decide)).2 rfl (Or.inr ⟨rfl, rfl⟩)⟩

/-- C2 counterexample: at time 200 the sample student, who has already
submitted assignment 1, does not get the duplicate-submission error:
the overdue check fires first and the call fails with the
deadline-passed error instead. -/
theorem submit_duplicate_error_counterexample :
    sampleOverdueAssignment.hasStudentSubmitted 5 = true ∧
    sampleOverdueAssignment.isOverdue 200 = true ∧
    (submitAssignment (fun _ => true) sampleUserDb sampleAssignmentDb 200
        (some sampleStudentAuth) 1 99 sampleSubmitReq).1 =
      ⟨400, "Assignment submission deadline has passed"⟩ ∧
    (submitAssignment (fun _ => true) sampleUserDb sampleAssignmentDb 200
        (some sampleStudentAuth) 1 99 sampleSubmitReq).1.msg ≠
      "You have already submitted this assignment" := by
  refine ⟨rfl, rfl, rfl, ?_⟩
  decide

/-- C2 (amended): for an authenticated student and an existing
assignment, a submit on an overdue assignment fails with a 400 and
leaves the store unchanged regardless of content validity, and a submit
by a student who already has a submission fails with the
duplicate-submission error — and leaves the store unchanged — when the
assignment is not overdue. -/
theorem submit_failure_rules (urlOk : String → Bool) (userDb : List StoredUser)
    (db : List Assignment) (now : Int) (user : AuthUser) (aid : Nat)
    (freshSubId : Nat) (req : SubmitRequest) (a : Assignment)
    (hrole : user.role = UserRole.student)
    (hfind : findAssignmentById db aid = some a) :
    (a.isOverdue now = true →
       (submitAssignment urlOk userDb db now (some user) aid freshSubId req).1.status = 400 ∧
       (submitAssignment urlOk userDb db now (some user) aid freshSubId req).2 = db) ∧
    (a.isOverdue now = false → submitReqValid urlOk req = true →
       a.hasStudentSubmitted user.id = true →
       (submitAssignment urlOk userDb db now (some user) aid freshSubId req).1 =
         ⟨400, "You have already submitted this assignment"⟩ ∧
       (submitAssignment urlOk userDb db now (some user) aid freshSubId req).2 = db) := by
  constructor
  · intro hov
    by_cases hval : submitReqValid urlOk req
    · simp [submitAssignment, hrole, hfind, hov, hval]
    · simp [submitAssignment, hrole, hfind, hval]
  · intro hov hval hdup
    simp [submitAssignment, hrole, hfind, hov, hval, hdup]

/-- Witness for the amended C2: the overdue submit at time 200 fails with
a 400 leaving the store intact, and the same duplicate submit at time 60
(before the due date) fails with the duplicate error. -/
theorem submit_failure_rules_witness :
    ((submitAssignment (fun _ => true) sampleUserDb sampleAssignmentDb 200
        (some sampleStudentAuth) 1 99 sampleSubmitReq).1.status = 400 ∧
     (submitAssignment (fun _ => true) sampleUserDb sampleAssignmentDb 200
        (some sampleStudentAuth) 1 99 sampleSubmitReq).2 = sampleAssignmentDb) ∧
    ((submitAssignment (fun _ => true) sampleUserDb sampleAssignmentDb 60
        (some sampleStudentAuth) 1 99 sampleSubmitReq).1 =
       ⟨400, "You have already submitted this assignment"⟩ ∧
     (submitAssignment (fun _ => true) sampleUserDb sampleAssignmentDb 60
        (some sampleStudentAuth) 1 99 sampleSubmitReq).2 = sampleAssignmentDb) :=
  ⟨(submit_failure_rules (fun _ => true) sampleUserDb sampleAssignmentDb 200
      sampleStudentAuth 1 99 sampleSubmitReq sampleOverdueAssignment rfl
      (by decide)).1 (by decide),
   (submit_failure_rules (fun _ => true) sampleUserDb sampleAssignmentDb 60
      sampleStudentAuth 1 99 sampleSubmitReq sampleOverdueAssignment rfl
      (by decide)).2 (by decide) (by decide) (by decide)⟩

/-- C10: in `submitAssignment` the overdue check is evaluated before the
duplicate-submission check: an overdue assignment always yields the
deadline-passed error even for a student who already submitted, and the
duplicate error is only ever returned when the assignment is not
overdue. -/
theorem submit_overdue_before_duplicate (urlOk : String → Bool)
    (userDb : List StoredUser) (db : List Assignment) (now : Int)
    (user : AuthUser) (aid : Nat) (freshSubId : Nat) (req : SubmitRequest)
    (a : Assignment)
    (hrole : user.role = UserRole.student)
    (hfind : findAssignmentById db aid = some a)
    (hval : submitReqValid urlOk req = true)
    (hdup : a.hasStudentSubmitted user.id = true) :
    (a.isOverdue now = true →
       (submitAssignment urlOk userDb db now (some user) aid freshSubId req).1 =
         ⟨400, "Assignment submission deadline has passed"⟩) ∧
    ((submitAssignment urlOk userDb db now (some user) aid freshSubId req).1.msg =
        "You have already submitted this assignment" →
       a.isOverdue now = false) := by
  constructor
  · intro hov
    simp [submitAssignment, hrole, hfind, hov, hval]
  · intro hmsg
    by_cases hov : a.isOverdue now
    · exfalso
      simp [submitAssignment, hrole, hfind, hov, hval] at hmsg
    · simpa using hov

/-- Witness for C10 at time 200 on the sample data. -/
theorem submit_overdue_before_duplicate_witness :
    (submitAssignment (fun _ => true) sampleUserDb sampleAssignmentDb 200
        (some sampleStudentAuth) 1 99 sampleSubmitReq).1 =
      ⟨400, "Assignment submission deadline has passed"⟩ :=
  (submit_overdue_before_duplicate (fun _ => true) sampleUserDb
      sampleAssignmentDb 200 sampleStudentAuth 1 99 sampleSubmitReq
      sampleOverdueAssignment rfl (by decide) (by decide) (by decide)).1
    (by decide)

/-- C4: under any status filter, a professor's listing matches exactly
the stored assignments they created (never one created by someone else),
a student's or admin's listing matches all stored assignments passing
the status filter, and the professor's listing is therefore contained in
the admin's (or student's) listing under the same filter. -/
theorem assignmentListing_scope (db : List Assignment) (now : Int)
    (st : StatusFilter) (prof other : AuthUser)
    (hp : prof.role = UserRole.professor)
    (ho : other.role ≠ UserRole.professor) :
    (∀ a : Assignment, a ∈ assignmentListing db now prof st ↔
       (a ∈ db ∧ a.createdBy = prof.id ∧ statusMatches now st a = true)) ∧
    assignmentListing db now other st = db.filter (statusMatches now st) ∧
    (∀ a : Assignment, a ∈ assignmentListing db now prof st →
       a ∈ assignmentListing db now other st) := by
  have hrm : ∀ a : Assignment, roleMatches prof a = (a.createdBy == prof.id) := by
    intro a
    simp [roleMatches, hp]
  have hro : ∀ a : Assignment, roleMatches other a = true := by
    intro a
    unfold roleMatches
    cases hother : other.role
    · rfl
    · exact absurd hother ho
    · rfl
  have h1 : ∀ a : Assignment, a ∈ assignmentListing db now prof st ↔
      (a ∈ db ∧ a.createdBy = prof.id ∧ statusMatches now st a = true) := by
    intro a
    simp [assignmentListing, List.mem_filter, hrm, and_assoc]
    tauto
  have h2 : assignmentListing db now other st = db.filter (statusMatches now st) := by
    unfold assignmentListing
    rw [List.filter_congr (fun x _ => hro x), List.filter_true]
  refine ⟨h1, h2, ?_⟩
  intro a ha
  rcases (h1 a).mp ha with ⟨hmem, _, hstatus⟩
  rw [h2]
  exact List.mem_filter.mpr ⟨hmem, hstatus⟩

/-- Witness for C4: on the sample store at time 0 with the `all` filter,
the professor's listing obeys the exact-own characterisation at a sample
assignment, and the admin's listing matches the whole filtered store. -/
theorem assignmentListing_scope_witness :
    (sampleOpenAssignment ∈ assignmentListing sampleAssignmentDb 0 sampleProfAuth .all ↔
       (sampleOpenAssignment ∈ sampleAssignmentDb ∧
        sampleOpenAssignment.createdBy = sampleProfAuth.id ∧
        statusMatches 0 .all sampleOpenAssignment = true)) ∧
    assignmentListing sampleAssignmentDb 0 sampleAdminAuth .all =
      sampleAssignmentDb.filter (statusMatches 0 .all) :=
  ⟨(assignmentListing_scope sampleAssignmentDb 0 .all sampleProfAuth
      sampleAdminAuth rfl (by decide)).1 sampleOpenAssignment,
   (assignmentListing_scope sampleAssignmentDb 0 .all sampleProfAuth
      sampleAdminAuth rfl (by decide)).2.1⟩

/-- C9: `validateFile` accepts a file exactly when its size is at most
10MB and its MIME type is in the fixed document allow-list; the
post-image controller forwards a file to cloud storage exactly when its
MIME type is one of the allowed image types and its size is at most 5MB;
and the assignment-upload controller only forwards files that
`validateFile` accepted. -/
theorem upload_validation_rules (f : UploadedFile) :
    (validateFile f = .ok () ↔
       (f.size ≤ 10 * 1024 * 1024 ∧ f.mimeType ∈ allowedUploadTypes)) ∧
    (∀ user : AuthUser,
       uploadPostImageCtrl true (some user) f = .forwarded ↔
         (f.mimeType ∈ imageTypes ∧ f.size ≤ 5 * 1024 * 1024)) ∧
    (∀ (db : List Assignment) (now : Int) (cu : Option AuthUser) (aid : Nat),
       uploadAssignmentSubmission true db now cu aid f = .forwarded →
         validateFile f = .ok ()) := by
  have hval : validateFile f = .ok () ↔
      (f.size ≤ 10 * 1024 * 1024 ∧ f.mimeType ∈ allowedUploadTypes) := by
    unfold validateFile
    by_cases hs : f.size > 10 * 1024 * 1024
    · rw [if_pos hs]
      simp
      intro hA
      exact absurd hA (by omega)
    · by_cases hm : f.mimeType ∈ allowedUploadTypes
      · have hc : allowedUploadTypes.contains f.mimeType = true := List.elem_iff.mpr hm
        rw [if_neg hs, if_neg (not_not_intro hc)]
        simp
        exact ⟨by omega, hm⟩
      · have hc : ¬ (allowedUploadTypes.contains f.mimeType = true) :=
          fun hh => hm (List.elem_iff.mp hh)
        rw [if_neg hs, if_pos hc]
        simp
        intro _
        exact hm
  refine ⟨hval, ?_, ?_⟩
  · intro user
    unfold uploadPostImageCtrl
    by_cases hm : f.mimeType ∈ imageTypes
    · rw [if_neg (by simp), if_neg (not_not_intro (List.elem_iff.mpr hm))]
      by_cases hsz : f.size > 5 * 1024 * 1024
      · rw [if_pos hsz]
        simp
        intro _
        omega
      · rw [if_neg hsz]
        simp
        exact ⟨hm, by omega⟩
    · rw [if_neg (by simp), if_pos (fun hh => hm (List.elem_iff.mp hh))]
      simp
      intro hmm
      exact absurd hmm hm
  · intro db now cu aid h
    cases hv : validateFile f with
    | ok u =>
      cases u
      rfl
    | error m =>
      exfalso
      unfold uploadAssignmentSubmission at h
      cases cu with
      | none => simp at h
      | some user =>
        by_cases hr : user.role = UserRole.student
        · cases hfa : findAssignmentById db aid with
          | none => simp [hr, hfa] at h
          | some a =>
            by_cases hov : a.isOverdue now
            · simp [hr, hfa, hov] at h
            · simp [hr, hfa, hov, hv] at h
        · simp [hr] at h

/-- Witness for C9 on a 1KB PDF: applying the characterisations at a
concrete file. -/
theorem upload_validation_rules_witness :
    ((validateFile { originalName := "a.pdf", mimeType := "application/pdf", size := 1024 } = .ok ()) ↔
       (1024 ≤ 10 * 1024 * 1024 ∧
        "application/pdf" ∈ allowedUploadTypes)) ∧
    (uploadPostImageCtrl true (some sampleStudentAuth)
        { originalName := "a.pdf", mimeType := "application/pdf", size := 1024 } = .forwarded ↔
       ("application/pdf" ∈ imageTypes ∧ 1024 ≤ 5 * 1024 * 1024)) :=
  ⟨(upload_validation_rules
      { originalName := "a.pdf", mimeType := "application/pdf", size := 1024 }).1,
   (upload_validation_rules
      { originalName := "a.pdf", mimeType := "application/pdf", size := 1024 }).2.1
     sampleStudentAuth⟩

/-- C5: for an authorized actor whose request is otherwise valid (text
fields within the zod and mongoose length bounds, stored submissions
valid), a create accepts the supplied due date exactly when it is
strictly later than the current time minus 24 hours, and otherwise fails
with the validation error leaving the store unchanged; an update
supplying a due date behaves the same way. -/
theorem dueDate_24h_rule :
    (∀ (userDb : List StoredUser) (db : List Assignment) (now : Int)
        (user : AuthUser) (freshId : Nat) (req : CreateAssignmentRequest),
       (user.role = UserRole.professor ∨ user.role = UserRole.admin) →
       creatorHookError userDb user.id = none →
       3 ≤ req.title.length → req.title.length ≤ 200 →
       10 ≤ req.description.length → req.description.length ≤ 10000 →
       3 ≤ (trimString req.title).length → (trimString req.title).length ≤ 200 →
       10 ≤ (trimString req.description).length →
       (trimString req.description).length ≤ 10000 →
       (((createAssignment userDb db now (some user) freshId req).1.status = 201 ↔
          req.dueDate > now - 24 * 60 * 60 * 1000) ∧
        (¬ req.dueDate > now - 24 * 60 * 60 * 1000 →
          createAssignment userDb db now (some user) freshId req =
            (⟨400, "Validation failed"⟩, db)))) ∧
    (∀ (db : List Assignment) (now : Int) (user : AuthUser) (aid : Nat)
        (req : UpdateAssignmentRequest) (a : Assignment) (d : Int),
       (user.role = UserRole.professor ∨ user.role = UserRole.admin) →
       ¬ (user.role = UserRole.professor ∧ a.createdBy ≠ user.id) →
       findAssignmentById db aid = some a →
       req.dueDate = some d →
       zodTitleOk req.title = true →
       zodDescriptionOk req.description = true →
       3 ≤ ((req.title.map trimString).getD a.title).length →
       ((req.title.map trimString).getD a.title).length ≤ 200 →
       10 ≤ ((req.description.map trimString).getD a.description).length →
       ((req.description.map trimString).getD a.description).length ≤ 10000 →
       a.submissions.all submissionDocValid = true →
       (((updateAssignment db now (some user) aid req).1.status = 200 ↔
          d > now - 24 * 60 * 60 * 1000) ∧
        (¬ d > now - 24 * 60 * 60 * 1000 →
          updateAssignment db now (some user) aid req =
            (⟨400, "Validation failed"⟩, db)))) := by
  constructor
  · intro userDb db now user freshId req hrole hhook ht1 ht2 hd1 hd2 ht3 ht4 hd3 hd4
    by_cases hdd : req.dueDate > now - 24 * 60 * 60 * 1000
    · have hddn : now - 86400000 < req.dueDate := by omega
      have hzv : createReqValid now req = true := by
        simp [createReqValid, dueDateValid, hddn, ht1, ht2, hd1, hd2]
      have hres : createAssignment userDb db now (some user) freshId req =
          (⟨201, "Assignment created"⟩,
           db ++ [{ id := freshId, title := trimString req.title,
                    description := trimString req.description, dueDate := req.dueDate,
                    createdBy := user.id, submissions := [],
                    createdAt := now, updatedAt := now }]) := by
        simp [createAssignment, hrole, hzv, hhook, assignmentDocValid,
          dueDateValid, hddn, ht3, ht4, hd3, hd4]
      refine ⟨?_, fun hcon => absurd hdd hcon⟩
      rw [hres]
      exact ⟨fun _ => hdd, fun _ => rfl⟩
    · have hcv : createReqValid now req = false := by
        simp [createReqValid, dueDateValid]
        omega
      have hres : createAssignment userDb db now (some user) freshId req =
          (⟨400, "Validation failed"⟩, db) := by
        simp [createAssignment, hrole, hcv]
      refine ⟨?_, fun _ => hres⟩
      rw [hres]
      constructor
      · intro hbad
        simp at hbad
      · intro hd
        exact absurd hd hdd
  · intro db now user aid req a d hrole hown hfind hdsome hzt hzd hat1 hat2 had1 had2 hsubs
    by_cases hdd : d > now - 24 * 60 * 60 * 1000
    · have hddn : now - 86400000 < d := by omega
      have hzv : updateReqValid now req = true := by
        simp [updateReqValid, hzt, hzd, hdsome, dueDateValid, hddn]
      have hres : updateAssignment db now (some user) aid req =
          (⟨200, "Assignment updated"⟩,
           db.map (fun x => if x.id = aid then applyAssignmentUpdates a req now else x)) := by
        simp [updateAssignment, hrole, hzv, hfind, hown, assignmentDocValid,
          applyAssignmentUpdates, dueDateValid, hdsome, hddn, hat1, hat2, had1,
          had2, hsubs]
      refine ⟨?_, fun hcon => absurd hdd hcon⟩
      rw [hres]
      exact ⟨fun _ => hdd, fun _ => rfl⟩
    · have hzv : updateReqValid now req = false := by
        simp [updateReqValid, hdsome, dueDateValid, hzt, hzd]
        omega
      have hres : updateAssignment db now (some user) aid req =
          (⟨400, "Validation failed"⟩, db) := by
        simp [updateAssignment, hrole, hzv]
      refine ⟨?_, fun _ => hres⟩
      rw [hres]
      constructor
      · intro hbad
        simp at hbad
      · intro hd
        exact absurd hd hdd

/-- Witness for C5: a concrete create by the sample professor with due
date 500 at time 0 and a concrete update of the open sample assignment
to due date 900, both exercising the acceptance direction. -/
theorem dueDate_24h_rule_witness :
    ((createAssignment sampleUserDb [] 0 (some sampleProfAuth) 3
        { title := "Essay three", description := "Write even more things.",
          dueDate := 500 }).1.status = 201 ↔
       (500 : Int) > 0 - 24 * 60 * 60 * 1000) ∧
    ((updateAssignment sampleAssignmentDb 0 (some sampleProfAuth) 2
        { title := none, description := none, dueDate := some 900 }).1.status = 200 ↔
       (900 : Int) > 0 - 24 * 60 * 60 * 1000) :=
  ⟨(dueDate_24h_rule.1 sampleUserDb [] 0 sampleProfAuth 3
      { title := "Essay three", description := "Write even more things.",
        dueDate := 500 } (Or.inl rfl) (by decide) (by decide) (by decide)
      (by decide) (by decide) (by decide) (by decide) (by decide) (by decide)).1,
   (dueDate_24h_rule.2 sampleAssignmentDb 0 sampleProfAuth 2
      { title := none, description := none, dueDate := some 900 }
      sampleOpenAssignment 900 (Or.inl rfl) (by decide) (by decide) rfl
      (by decide) (by decide) (by decide) (by decide) (by decide) (by decide)
      (by decide)).1⟩

end SMP
